import Mathlib

/-!
# Controle Financeiro — verification of the aggregation core

Shallow embedding of `src/backend/server.py` (personal finance backend):
the limit-monitor routine `check_category_limits`, the transaction
creation flow `create_transaction`, and the dashboard aggregation
`get_dashboard_summary`.

Modelling conventions:
* Python `float` amounts are modelled as `ℚ` (exact arithmetic; the
  claims under scrutiny are structural, not about rounding).
* `datetime.date` is modelled as a `year/month/day` record with the
  lexicographic order; MongoDB's `$gte` on ISO-8601 date strings agrees
  with this order (zero-padded `YYYY-MM-DD` compares lexicographically
  like the calendar order), so both the Mongo query in
  `check_category_limits` and the Python `date` comparisons in
  `get_dashboard_summary` are one and the same comparison here.
* Python `sum(...)` over a generator is a left fold starting at `0`,
  modelled by `pySum`.
* Python division is modelled by `pyDiv`, returning
  `Except.error "ZeroDivisionError"` on a zero divisor, so "the code
  never raises" is a provable statement.
* The alert message f-strings interpolate, in the warning variant, the
  percentage and the category name, and in the exceeded variant the
  total spent, the limit and the category name; the message is modelled
  as an inductive carrying exactly those interpolated values.
* `uuid.uuid4()` and `datetime.now()` are external inputs: the fresh id
  is an explicit parameter, and timestamps (`created_at`), which no
  claim touches, are omitted from the records.
* The Mongo collections are modelled as a `Store` of lists; `find_one`
  returns the first match; the Python dict `categories_dict` built in
  `get_dashboard_summary` keeps the last binding for a duplicated key.
-/

namespace ControleFinanceiro

/-- A calendar date, `datetime.date`: year, month, day. -/
structure SDate where
  year : Nat
  month : Nat
  day : Nat
deriving DecidableEq, Repr

/-- Date comparison `a <= b`, the lexicographic year/month/day order
(equivalently, ISO-8601 string comparison on zero-padded dates). -/
def SDate.leb (a b : SDate) : Bool :=
  Nat.blt a.year b.year ||
    (a.year == b.year &&
      (Nat.blt a.month b.month ||
        (a.month == b.month && Nat.ble a.day b.day)))

/-- `transaction_date.replace(day=1)`: the first day of the date's month. -/
def monthStart (d : SDate) : SDate :=
  ⟨d.year, d.month, 1⟩

/-- The first day of the month after `d`'s month (used only to state the
spec's half-open month window; the code never computes it). -/
def nextMonthStart (d : SDate) : SDate :=
  if d.month == 12 then ⟨d.year + 1, 1, 1⟩ else ⟨d.year, d.month + 1, 1⟩

/-- `TransactionType`: the `income`/`expense` enum. -/
inductive TransactionType where
  | income
  | expense
deriving DecidableEq, Repr

/-- `Category` pydantic model (sans `created_at`, unused by the claims). -/
structure Category where
  id : String
  name : String
  type : TransactionType
  limit_enabled : Bool
  monthly_limit : Option ℚ
  color : String
deriving DecidableEq, Repr

/-- `Transaction` pydantic model (sans `created_at`). -/
structure Transaction where
  id : String
  description : String
  amount : ℚ
  type : TransactionType
  category_id : String
  date : SDate
deriving DecidableEq, Repr

/-- `TransactionCreate` request model. -/
structure TransactionCreate where
  description : String
  amount : ℚ
  type : TransactionType
  category_id : String
  date : SDate
deriving DecidableEq, Repr

/-- The alert message, one constructor per f-string variant of
`check_category_limits`, carrying exactly the interpolated values:
`warning` for "Atenção! Você gastou {percentage}% do limite na categoria
{name}", `exceeded` for "Limite excedido! Você gastou R$ {total_spent} do
limite de R$ {limit} na categoria {name}". -/
inductive AlertMessage where
  | warning (percentage : ℚ) (categoryName : String)
  | exceeded (total_spent : ℚ) (limit : ℚ) (categoryName : String)
deriving DecidableEq, Repr

/-- `Alert` pydantic model (sans `id`/`created_at`, which are fresh
externals no claim touches). -/
structure Alert where
  category_id : String
  message : AlertMessage
  amount_spent : ℚ
  limit_amount : ℚ
  percentage : ℚ
  date : SDate
  is_read : Bool
deriving DecidableEq, Repr

/-- Python `sum(...)`: a left fold with initial value `0`. -/
def pySum (l : List ℚ) : ℚ :=
  l.foldl (fun a b => a + b) 0

/-- Python `/`: raises `ZeroDivisionError` on a zero divisor. -/
def pyDiv (a b : ℚ) : Except String ℚ :=
  if b = 0 then Except.error "ZeroDivisionError" else Except.ok (a / b)

/-- The Mongo filter of `check_category_limits`'s month-expense query:
same category, type `"expense"`, and `date >= month_start` — with no
upper bound on the date. -/
def monthFilter (category_id : String) (month_start : SDate)
    (t : Transaction) : Bool :=
  t.category_id == category_id && t.type == TransactionType.expense &&
    SDate.leb month_start t.date

/-- `total_spent` as `check_category_limits` computes it: the query
filters on `date >= transaction_date.replace(day=1)` and the amounts of
the matching transactions are summed. -/
def month_total (category_id : String) (transaction_date : SDate)
    (transactions : List Transaction) : ℚ :=
  pySum (((transactions.filter
    (monthFilter category_id (monthStart transaction_date)))).map
      (fun t => t.amount))

/-- The spec's half-open month-to-date window: same filter but with the
exclusive upper bound `date < first-of-next-month`. Stated from the
spec's words, for comparison with `month_total` (claim C1). -/
def month_total_halfopen (category_id : String) (transaction_date : SDate)
    (transactions : List Transaction) : ℚ :=
  ((transactions.filter (fun t =>
    monthFilter category_id (monthStart transaction_date) t &&
      !(SDate.leb (nextMonthStart transaction_date) t.date))).map
        (fun t => t.amount)).sum

/-- Lines 307–342 of `server.py` up to (not including) the
`db.alerts.insert_one` call: given the already-fetched category document,
decide which alert, if any, the limit check produces.  Mirrors the code:
falsy guard on `limit_enabled` and `monthly_limit`, the month query,
`percentage = total_spent / limit * 100`, the `>= 80` / `>= 100`
branches, and the constructed `Alert` (whose `is_read` defaults to
`False`). -/
def check_category_limits_pure (category_id : String)
    (category : Option Category) (transaction_date : SDate)
    (transactions : List Transaction) : Except String (Option Alert) :=
  match category with
  | none => Except.ok none
  | some c =>
    if !c.limit_enabled then Except.ok none
    else
      match c.monthly_limit with
      | none => Except.ok none
      | some limit =>
        if limit = 0 then Except.ok none
        else
          let total_spent := month_total category_id transaction_date
            transactions
          match pyDiv total_spent limit with
          | Except.error e => Except.error e
          | Except.ok q =>
            let percentage := q * 100
            Except.ok
              (if 80 ≤ percentage then
                some ⟨category_id,
                  (if 100 ≤ percentage then
                    AlertMessage.exceeded total_spent limit c.name
                  else
                    AlertMessage.warning percentage c.name),
                  total_spent, limit, percentage, transaction_date, false⟩
              else none)

/-- The Mongo collections touched by the modelled endpoints. -/
structure Store where
  categories : List Category
  transactions : List Transaction
  alerts : List Alert
deriving DecidableEq, Repr

/-- `db.categories.find_one({"id": category_id})`: first matching
document. -/
def db_find_one_category (s : Store) (category_id : String) :
    Option Category :=
  s.categories.find? (fun c => c.id == category_id)

/-- The alert list a limit-check outcome appends to the store: the
produced alert, if any (an error would abort before any insert). -/
def alertsProduced (r : Except String (Option Alert)) : List Alert :=
  match r with
  | Except.ok (some a) => [a]
  | Except.ok none => []
  | Except.error _ => []

/-- `check_category_limits` (lines 307–342), stateful: fetch the
category, run the pure computation, and — inside this very function —
`db.alerts.insert_one` the produced alert.  The `error` branch is
unreachable (see `check_category_limits_pure_never_errors`). -/
def check_category_limits (category_id : String) (transaction_date : SDate)
    (s : Store) : Store :=
  match check_category_limits_pure category_id
      (db_find_one_category s category_id) transaction_date
      s.transactions with
  | Except.ok (some alert) =>
    ⟨s.categories, s.transactions, s.alerts ++ [alert]⟩
  | Except.ok none => s
  | Except.error _ => s

/-- The `Transaction` document built from a `TransactionCreate` body and
a fresh id. -/
def mkTransaction (tc : TransactionCreate) (newId : String) : Transaction :=
  ⟨newId, tc.description, tc.amount, tc.type, tc.category_id, tc.date⟩

/-- `create_transaction` (lines 140–150): insert the transaction document
first, then — only for an expense — run `check_category_limits` on the
updated store; return the updated store and the created transaction. -/
def create_transaction (tc : TransactionCreate) (newId : String)
    (s : Store) : Store × Transaction :=
  let transaction_obj := mkTransaction tc newId
  let s1 : Store :=
    ⟨s.categories, s.transactions ++ [transaction_obj], s.alerts⟩
  let s2 :=
    if tc.type = TransactionType.expense then
      check_category_limits tc.category_id tc.date s1
    else s1
  (s2, transaction_obj)

/-- One `+=` step of the `defaultdict(float)` accumulation: update the
key in place if present, otherwise append it (Python dicts preserve
insertion order). -/
def addSpending (pairs : List (String × ℚ)) (cid : String) (amt : ℚ) :
    List (String × ℚ) :=
  match pairs with
  | [] => [(cid, amt)]
  | (k, v) :: rest =>
    if k == cid then (k, v + amt) :: rest
    else (k, v) :: addSpending rest cid amt

/-- The `category_spending` defaultdict of `get_dashboard_summary`
(lines 257–260), as an insertion-ordered association list: every
current-month expense transaction adds its amount under its category
id. -/
def category_spending_pairs (transactions : List Transaction)
    (current_month : SDate) : List (String × ℚ) :=
  transactions.foldl
    (fun pairs t =>
      if t.type == TransactionType.expense && SDate.leb current_month t.date
      then addSpending pairs t.category_id t.amount
      else pairs)
    []

/-- Lookup in `categories_dict` (line 269): Python dict semantics keep
the LAST binding when two categories share an id. -/
def categories_dict_get (categories : List Category) (cid : String) :
    Option Category :=
  categories.foldl (fun acc c => if c.id == cid then some c else acc) none

/-- One insertion step of a stable descending-by-date sort: the new
element goes in front of the first element whose date is `<=` its own, so
earlier snapshot elements win ties. -/
def insertTxnDesc (t : Transaction) : List Transaction → List Transaction
  | [] => [t]
  | b :: l =>
    if SDate.leb b.date t.date then t :: b :: l
    else b :: insertTxnDesc t l

/-- `sorted(transactions, key=lambda x: x["date"], reverse=True)`:
Python's sort is stable, and a stable sort under a total preorder is
extensionally unique, so this stable insertion sort computes the same
list Timsort does. -/
def sortTxnsDesc : List Transaction → List Transaction
  | [] => []
  | b :: l => insertTxnDesc b (sortTxnsDesc l)

/-- One record of the `category_spending` breakdown (line 275–279):
category display name, accumulated amount, display color. -/
structure CategorySpendingRecord where
  category : String
  amount : ℚ
  color : String
deriving DecidableEq, Repr

/-- One cleaned recent transaction (lines 283–294): the transaction's
fields plus `category_name`, present exactly when the category id is a
key of `categories_dict`. -/
structure RecentTransaction where
  id : String
  description : String
  amount : ℚ
  type : TransactionType
  category_id : String
  date : SDate
  category_name : Option String
deriving DecidableEq, Repr

/-- The dashboard summary payload (lines 296–305). -/
structure Summary where
  total_balance : ℚ
  total_income : ℚ
  total_expenses : ℚ
  monthly_balance : ℚ
  monthly_income : ℚ
  monthly_expenses : ℚ
  category_spending : List CategorySpendingRecord
  recent_transactions : List RecentTransaction
deriving DecidableEq, Repr

/-- `get_dashboard_summary` (lines 227–305) on already-fetched
snapshots.  `current_date` stands for `datetime.now(timezone.utc).date()`,
threaded as an explicit parameter; `current_month = current_date.replace(day=1)`;
all monthly figures filter `date >= current_month` with no upper bound. -/
def get_dashboard_summary (transactions : List Transaction)
    (categories : List Category) (current_date : SDate) : Summary :=
  let current_month := monthStart current_date
  let total_income := pySum ((transactions.filter
    (fun t => t.type == TransactionType.income)).map (fun t => t.amount))
  let total_expenses := pySum ((transactions.filter
    (fun t => t.type == TransactionType.expense)).map (fun t => t.amount))
  let balance := total_income - total_expenses
  let monthly_income := pySum ((transactions.filter
    (fun t => t.type == TransactionType.income &&
      SDate.leb current_month t.date)).map (fun t => t.amount))
  let monthly_expenses := pySum ((transactions.filter
    (fun t => t.type == TransactionType.expense &&
      SDate.leb current_month t.date)).map (fun t => t.amount))
  let monthly_balance := monthly_income - monthly_expenses
  let pairs := category_spending_pairs transactions current_month
  let category_data := pairs.filterMap (fun p =>
    (categories_dict_get categories p.1).map
      (fun c => CategorySpendingRecord.mk c.name p.2 c.color))
  let recent := (sortTxnsDesc transactions).take 10
  let clean_recent := recent.map (fun t =>
    RecentTransaction.mk t.id t.description t.amount t.type t.category_id
      t.date ((categories_dict_get categories t.category_id).map
        (fun c => c.name)))
  ⟨balance, total_income, total_expenses, monthly_balance, monthly_income,
    monthly_expenses, category_data, clean_recent⟩

/-- Total lookup in an association list, `0` for an absent key (the
`defaultdict(float)` default). -/
def lookupAmt (pairs : List (String × ℚ)) (cid : String) : ℚ :=
  match pairs with
  | [] => 0
  | (k, v) :: rest => if k == cid then v else lookupAmt rest cid

/-- The month-expense sum of one category over a transaction snapshot,
stated declaratively (used to characterise the dashboard breakdown). -/
def categoryMonthSum (cid : String) (current_month : SDate)
    (transactions : List Transaction) : ℚ :=
  ((transactions.filter (fun t =>
    t.type == TransactionType.expense && SDate.leb current_month t.date &&
      t.category_id == cid)).map (fun t => t.amount)).sum

section ConcreteInputs

/-! Concrete inputs used by the witnesses and counterexamples below. -/

/-- C1: a February-dated expense of category `"a"`. -/
def c1TxFeb : Transaction :=
  ⟨"t2", "feb expense", 50, TransactionType.expense, "a", ⟨2025, 2, 1⟩⟩

/-- C1: category `"a"` with a limit of 40. -/
def c1Cat : Category :=
  ⟨"a", "Food", TransactionType.expense, true, some 40, "#f00"⟩

/-- C2/C5: category `"a"` with a limit of 100. -/
def c2Cat : Category :=
  ⟨"a", "Food", TransactionType.expense, true, some 100, "#f00"⟩

/-- C2/C5: an 85-unit January expense of category `"a"`. -/
def c2Tx : Transaction :=
  ⟨"t1", "groceries", 85, TransactionType.expense, "a", ⟨2025, 1, 10⟩⟩

/-- C2/C5: the warning alert produced for `c2Tx` against `c2Cat`. -/
def c2Alert : Alert :=
  ⟨"a", AlertMessage.warning 85 "Food", 85, 100, 85, ⟨2025, 1, 10⟩, false⟩

/-- C3: category `"a"` with a NEGATIVE limit of -100. -/
def c3Cat : Category :=
  ⟨"a", "Food", TransactionType.expense, true, some (-100), "#f00"⟩

/-- C3: a negative-amount January expense of category `"a"` (amounts are
expected positive but nowhere enforced). -/
def c3Tx : Transaction :=
  ⟨"t1", "refund", -100, TransactionType.expense, "a", ⟨2025, 1, 10⟩⟩

/-- C3: a category with `limit_enabled = false`. -/
def c3DisabledCat : Category :=
  ⟨"b", "Fun", TransactionType.expense, false, some 100, "#0f0"⟩

/-- C4: a 100-unit January expense of category `"a"`. -/
def c4Tx : Transaction :=
  ⟨"t1", "rent", 100, TransactionType.expense, "a", ⟨2025, 1, 10⟩⟩

/-- C4: a store holding `c2Cat` (limit 100), the single transaction
`c4Tx`, and no alerts. -/
def c4Store : Store := ⟨[c2Cat], [c4Tx], []⟩

/-- C4: an expense creation request for category `"a"`. -/
def c4Tc : TransactionCreate :=
  ⟨"dinner", 30, TransactionType.expense, "a", ⟨2025, 1, 20⟩⟩

/-- C7: a zero-amount January expense of category `"a"`. -/
def c7Tx : Transaction :=
  ⟨"t1", "freebie", 0, TransactionType.expense, "a", ⟨2025, 1, 10⟩⟩

/-- C7: the category `"a"` referenced by `c7Tx`. -/
def c7Cat : Category :=
  ⟨"a", "Food", TransactionType.expense, false, none, "#f00"⟩

/-- C8: two January transactions sharing a date, plus an older one. -/
def c8Ts : List Transaction :=
  [⟨"t1", "first", 10, TransactionType.expense, "a", ⟨2025, 1, 10⟩⟩,
   ⟨"t2", "second", 20, TransactionType.income, "a", ⟨2025, 1, 10⟩⟩,
   ⟨"t3", "older", 30, TransactionType.expense, "b", ⟨2024, 12, 1⟩⟩]

/-- C10: an expense creation request, category `"z"`, amount 42. -/
def c10Tc : TransactionCreate :=
  ⟨"books", 42, TransactionType.expense, "z", ⟨2025, 3, 5⟩⟩

end ConcreteInputs

/-! ## General lemmas about the embedded operations -/

theorem SDate.leb_iff (a b : SDate) :
    SDate.leb a b = true ↔
      (a.year < b.year ∨ (a.year = b.year ∧
        (a.month < b.month ∨ (a.month = b.month ∧ a.day ≤ b.day)))) := by
  simp [SDate.leb, Nat.blt_eq, Nat.ble_eq, Bool.or_eq_true, Bool.and_eq_true,
    beq_iff_eq]

theorem SDate.leb_refl (a : SDate) : SDate.leb a a = true := by
  rw [SDate.leb_iff]; omega

theorem SDate.leb_trans {a b c : SDate} (h1 : SDate.leb a b = true)
    (h2 : SDate.leb b c = true) : SDate.leb a c = true := by
  rw [SDate.leb_iff] at h1 h2 ⊢; omega

theorem SDate.leb_total (a b : SDate) (h : SDate.leb a b = false) :
    SDate.leb b a = true := by
  rw [SDate.leb_iff]
  rw [← Bool.not_eq_true, SDate.leb_iff] at h
  omega

theorem pySum_aux (l : List ℚ) (init : ℚ) :
    l.foldl (fun a b => a + b) init = init + pySum l := by
  induction l generalizing init with
  | nil => simp [pySum]
  | cons x xs ih =>
    simp only [List.foldl_cons, pySum]
    rw [ih, ih (0 + x)]
    ring

theorem pySum_eq_sum (l : List ℚ) : pySum l = l.sum := by
  induction l with
  | nil => rfl
  | cons x xs ih =>
    rw [List.sum_cons, ← ih, pySum, List.foldl_cons, pySum_aux]
    ring

/-- `total_spent` is the declarative filtered sum. -/
theorem month_total_eq_sum (cid : String) (d : SDate)
    (ts : List Transaction) :
    month_total cid d ts =
      ((ts.filter (monthFilter cid (monthStart d))).map
        (fun t => t.amount)).sum := by
  rw [month_total, pySum_eq_sum]

/-- Appending one transaction changes `total_spent` by its amount exactly
when the month filter (no upper date bound) accepts it. -/
theorem month_total_append (cid : String) (d : SDate)
    (ts : List Transaction) (t : Transaction) :
    month_total cid d (ts ++ [t]) =
      month_total cid d ts +
        (if monthFilter cid (monthStart d) t then t.amount else 0) := by
  rw [month_total_eq_sum, month_total_eq_sum, List.filter_append,
    List.map_append, List.sum_append]
  by_cases h : monthFilter cid (monthStart d) t
  · simp [h]
  · simp [h]

/-- A snapshot with no transaction of the category contributes nothing
to `total_spent`. -/
theorem month_total_eq_zero (cid : String) (d : SDate)
    (ts : List Transaction)
    (h : ∀ t ∈ ts, t.category_id ≠ cid) :
    month_total cid d ts = 0 := by
  rw [month_total_eq_sum]
  have hf : ts.filter (monthFilter cid (monthStart d)) = [] := by
    rw [List.filter_eq_nil_iff]
    intro t ht
    simp only [monthFilter, Bool.and_eq_true, beq_iff_eq, Bool.not_eq_true]
    intro hc
    exact absurd hc.1.1 (h t ht)
  rw [hf]
  rfl

/-- The pure limit computation never reaches the division with a zero
divisor: it always returns `Except.ok`. -/
theorem check_category_limits_pure_never_errors (cid : String)
    (category : Option Category) (d : SDate) (ts : List Transaction) :
    ∃ r, check_category_limits_pure cid category d ts = Except.ok r := by
  unfold check_category_limits_pure
  match category with
  | none => exact ⟨none, rfl⟩
  | some c =>
    by_cases he : c.limit_enabled
    · simp only [he, Bool.not_true, Bool.false_eq_true, if_false]
      match hml : c.monthly_limit with
      | none => exact ⟨none, rfl⟩
      | some limit =>
        by_cases hz : limit = 0
        · simp [hz]
        · simp only [hz, if_false, pyDiv, reduceIte]
          exact ⟨_, rfl⟩
    · simp [he]

/-- `check_category_limits` leaves categories and transactions untouched
and appends exactly the alert the pure computation produces. -/
theorem check_category_limits_frame (cid : String) (d : SDate) (s : Store) :
    (check_category_limits cid d s).categories = s.categories ∧
    (check_category_limits cid d s).transactions = s.transactions ∧
    (check_category_limits cid d s).alerts =
      s.alerts ++ alertsProduced (check_category_limits_pure cid
        (db_find_one_category s cid) d s.transactions) := by
  unfold check_category_limits
  match h : check_category_limits_pure cid (db_find_one_category s cid) d
      s.transactions with
  | Except.ok (some a) => simp [alertsProduced]
  | Except.ok none => simp [alertsProduced]
  | Except.error e => simp [alertsProduced]

/-- The store `create_transaction` hands to the limit check already
contains the new transaction document. -/
theorem create_transaction_unfold (tc : TransactionCreate) (newId : String)
    (s : Store) :
    (tc.type = TransactionType.expense →
      create_transaction tc newId s =
        (check_category_limits tc.category_id tc.date
          ⟨s.categories, s.transactions ++ [mkTransaction tc newId],
            s.alerts⟩, mkTransaction tc newId)) ∧
    (tc.type ≠ TransactionType.expense →
      create_transaction tc newId s =
        (⟨s.categories, s.transactions ++ [mkTransaction tc newId],
          s.alerts⟩, mkTransaction tc newId)) := by
  constructor
  · intro h
    simp [create_transaction, h]
  · intro h
    simp [create_transaction, h]

/-- The transactions collection after `create_transaction` is the old
one with the new document appended (the limit check writes no
transaction). -/
theorem create_transaction_transactions (tc : TransactionCreate)
    (newId : String) (s : Store) :
    (create_transaction tc newId s).1.transactions =
      s.transactions ++ [mkTransaction tc newId] := by
  by_cases h : tc.type = TransactionType.expense
  · rw [((create_transaction_unfold tc newId s).1 h)]
    exact (check_category_limits_frame tc.category_id tc.date _).2.1
  · rw [((create_transaction_unfold tc newId s).2 h)]

/-! ### The stable descending sort of `get_dashboard_summary` -/

theorem mem_insertTxnDesc (t x : Transaction) (l : List Transaction) :
    x ∈ insertTxnDesc t l ↔ x = t ∨ x ∈ l := by
  induction l with
  | nil => simp [insertTxnDesc]
  | cons b rest ih =>
    by_cases h : SDate.leb b.date t.date
    · simp [insertTxnDesc, h]
    · simp only [insertTxnDesc, h, if_false, List.mem_cons, ih,
        Bool.false_eq_true]
      tauto

theorem length_insertTxnDesc (t : Transaction) (l : List Transaction) :
    (insertTxnDesc t l).length = l.length + 1 := by
  induction l with
  | nil => rfl
  | cons b rest ih =>
    by_cases h : SDate.leb b.date t.date
    · simp [insertTxnDesc, h]
    · simp [insertTxnDesc, h, ih]

theorem length_sortTxnsDesc (l : List Transaction) :
    (sortTxnsDesc l).length = l.length := by
  induction l with
  | nil => rfl
  | cons b rest ih =>
    rw [sortTxnsDesc, length_insertTxnDesc, ih, List.length_cons]

theorem perm_insertTxnDesc (t : Transaction) (l : List Transaction) :
    (insertTxnDesc t l).Perm (t :: l) := by
  induction l with
  | nil => exact List.Perm.refl _
  | cons b rest ih =>
    by_cases h : SDate.leb b.date t.date
    · simp [insertTxnDesc, h]
    · simp only [insertTxnDesc, h, if_false]
      exact (ih.cons b).trans (List.Perm.swap t b rest)

theorem perm_sortTxnsDesc (l : List Transaction) :
    (sortTxnsDesc l).Perm l := by
  induction l with
  | nil => exact List.Perm.refl _
  | cons b rest ih =>
    exact (perm_insertTxnDesc b (sortTxnsDesc rest)).trans (ih.cons b)

theorem pairwise_insertTxnDesc (t : Transaction) (l : List Transaction)
    (h : l.Pairwise (fun a b => SDate.leb b.date a.date = true)) :
    (insertTxnDesc t l).Pairwise
      (fun a b => SDate.leb b.date a.date = true) := by
  induction l with
  | nil => simp [insertTxnDesc]
  | cons b rest ih =>
    rcases List.pairwise_cons.mp h with ⟨hb, hrest⟩
    by_cases hle : SDate.leb b.date t.date
    · rw [insertTxnDesc, if_pos hle]
      refine List.pairwise_cons.mpr ⟨?_, h⟩
      intro x hx
      rcases List.mem_cons.mp hx with hxb | hxr
      · rw [hxb]; exact hle
      · exact SDate.leb_trans (hb x hxr) hle
    · rw [insertTxnDesc, if_neg hle]
      refine List.pairwise_cons.mpr ⟨?_, ih hrest⟩
      intro x hx
      rcases (mem_insertTxnDesc t x rest).mp hx with hxt | hxr
      · rw [hxt]
        exact SDate.leb_total b.date t.date (Bool.not_eq_true _ ▸
          eq_false_of_ne_true (fun hc => hle hc))
      · exact hb x hxr

theorem pairwise_sortTxnsDesc (l : List Transaction) :
    (sortTxnsDesc l).Pairwise (fun a b => SDate.leb b.date a.date = true) := by
  induction l with
  | nil => exact List.Pairwise.nil
  | cons b rest ih => exact pairwise_insertTxnDesc b (sortTxnsDesc rest) ih

/-- Stability of the insertion step: restricted to any fixed date, the
inserted element lands in front of the (strictly older, hence unequal)
elements it jumped over, so the date-filtered order is `t` first. -/
theorem filter_date_insertTxnDesc (dd : SDate) (t : Transaction)
    (l : List Transaction) :
    (insertTxnDesc t l).filter (fun x => x.date == dd) =
      if t.date == dd then
        t :: l.filter (fun x => x.date == dd)
      else l.filter (fun x => x.date == dd) := by
  induction l with
  | nil =>
    by_cases h : t.date == dd
    · simp [insertTxnDesc, h]
    · simp [insertTxnDesc, h]
  | cons b rest ih =>
    by_cases hle : SDate.leb b.date t.date
    · by_cases h : t.date == dd
      · simp [insertTxnDesc, hle, h]
      · simp [insertTxnDesc, hle, h]
    · have hbne : (b.date == dd) = true → (t.date == dd) = false := by
        intro hb
        by_contra hc
        have ht : t.date = dd := beq_iff_eq.mp (Bool.not_eq_false _ ▸ hc)
        have hb2 : b.date = dd := beq_iff_eq.mp hb
        exact hle (hb2 ▸ ht ▸ SDate.leb_refl dd)
      by_cases h : t.date == dd
      · have hb : (b.date == dd) = false := by
          by_contra hc
          exact absurd h (by simp [hbne (Bool.not_eq_false _ ▸ hc)])
        simp [insertTxnDesc, hle, List.filter_cons, hb, ih, h]
      · by_cases hb : b.date == dd
        · simp [insertTxnDesc, hle, List.filter_cons, hb, ih, h]
        · simp [insertTxnDesc, hle, List.filter_cons, hb, ih, h]

/-- Stability of the sort: restricted to any fixed date, the sorted list
keeps the snapshot's original relative order. -/
theorem filter_date_sortTxnsDesc (dd : SDate) (l : List Transaction) :
    (sortTxnsDesc l).filter (fun x => x.date == dd) =
      l.filter (fun x => x.date == dd) := by
  induction l with
  | nil => rfl
  | cons b rest ih =>
    rw [sortTxnsDesc, filter_date_insertTxnDesc]
    by_cases h : b.date == dd
    · simp [h, List.filter_cons, ih]
    · simp [h, List.filter_cons, ih]

/-! ### The `category_spending` defaultdict accumulation -/

theorem lookupAmt_addSpending (pairs : List (String × ℚ)) (k c : String)
    (a : ℚ) :
    lookupAmt (addSpending pairs k a) c =
      if c = k then lookupAmt pairs c + a else lookupAmt pairs c := by
  induction pairs with
  | nil =>
    by_cases h : c = k
    · subst h
      simp [addSpending, lookupAmt]
    · have h2 : k ≠ c := fun hc => h hc.symm
      simp [addSpending, lookupAmt, h, h2]
  | cons p rest ih =>
    rcases p with ⟨pk, pv⟩
    by_cases hpk : pk = k
    · subst hpk
      by_cases h : c = pk
      · subst h
        simp [addSpending, lookupAmt]
      · have h2 : pk ≠ c := fun hc => h hc.symm
        simp [addSpending, lookupAmt, h, h2]
    · by_cases h : c = pk
      · subst h
        have h2 : ¬ c = k := fun hc => hpk hc
        simp [addSpending, lookupAmt, hpk, h2]
      · have h2 : pk ≠ c := fun hc => h hc.symm
        simp [addSpending, lookupAmt, hpk, h2, h, ih]

theorem keys_addSpending (pairs : List (String × ℚ)) (k : String) (a : ℚ) :
    (addSpending pairs k a).map Prod.fst =
      if k ∈ pairs.map Prod.fst then pairs.map Prod.fst
      else pairs.map Prod.fst ++ [k] := by
  induction pairs with
  | nil => simp [addSpending]
  | cons p rest ih =>
    rcases p with ⟨pk, pv⟩
    by_cases hpk : pk = k
    · subst hpk
      simp [addSpending]
    · have hpk2 : ¬ k = pk := fun hc => hpk hc.symm
      simp only [addSpending, beq_iff_eq, hpk, if_false, List.map_cons,
        List.mem_cons, ih]
      by_cases hk : k ∈ rest.map Prod.fst
      · simp [hk]
      · simp [hk, hpk2]

theorem nodup_keys_addSpending (pairs : List (String × ℚ)) (k : String)
    (a : ℚ) (h : (pairs.map Prod.fst).Nodup) :
    ((addSpending pairs k a).map Prod.fst).Nodup := by
  rw [keys_addSpending]
  by_cases hk : k ∈ pairs.map Prod.fst
  · simpa [hk] using h
  · simp only [hk, if_false]
    exact List.Nodup.append h (List.nodup_singleton k)
      (fun x hx hmem => hk ((List.mem_singleton.mp hmem) ▸ hx))

theorem mem_value_eq_lookupAmt (pairs : List (String × ℚ))
    (h : (pairs.map Prod.fst).Nodup) :
    ∀ p ∈ pairs, p.2 = lookupAmt pairs p.1 := by
  induction pairs with
  | nil => intro p hp; cases hp
  | cons q rest ih =>
    rcases q with ⟨qk, qv⟩
    intro p hp
    rcases List.mem_cons.mp hp with hph | hpt
    · subst hph
      simp [lookupAmt]
    · have h2 : qk ∉ rest.map Prod.fst ∧ (rest.map Prod.fst).Nodup := by
        rw [List.map_cons, List.nodup_cons] at h
        exact h
      have hne : qk ≠ p.1 := by
        intro hc
        exact h2.1 (hc ▸ List.mem_map.mpr ⟨p, hpt, rfl⟩)
      simp only [lookupAmt, beq_iff_eq, hne, if_false]
      exact ih h2.2 p hpt

/-- The condition under which `get_dashboard_summary` accumulates a
transaction into `category_spending`. -/
def spendCond (current_month : SDate) (t : Transaction) : Bool :=
  t.type == TransactionType.expense && SDate.leb current_month t.date

theorem lookupAmt_category_spending_aux (cm : SDate)
    (ts : List Transaction) :
    ∀ (pairs : List (String × ℚ)) (cid : String),
      lookupAmt (ts.foldl (fun pairs t =>
        if spendCond cm t then addSpending pairs t.category_id t.amount
        else pairs) pairs) cid =
        lookupAmt pairs cid +
          ((ts.filter (fun t => spendCond cm t && t.category_id == cid)).map
            (fun t => t.amount)).sum := by
  induction ts with
  | nil => intro pairs cid; simp
  | cons t rest ih =>
    intro pairs cid
    by_cases hc : spendCond cm t
    · simp only [List.foldl_cons, hc, if_true, ih, lookupAmt_addSpending,
        List.filter_cons, Bool.and_eq_true, beq_iff_eq]
      by_cases hcid : cid = t.category_id
      · subst hcid
        simp only [true_and, if_true, List.map_cons, List.sum_cons]
        ring
      · have h3 : ¬ t.category_id = cid := fun hcc => hcid hcc.symm
        simp [h3, hcid]
    · have hcf : spendCond cm t = false := eq_false_of_ne_true hc
      simp [List.foldl_cons, hcf, ih pairs cid, List.filter_cons]

/-- Each key of the `category_spending` dict accumulates exactly the
category's current-month expense sum (and an absent key has sum `0`). -/
theorem lookupAmt_category_spending (cm : SDate) (ts : List Transaction)
    (cid : String) :
    lookupAmt (category_spending_pairs ts cm) cid =
      categoryMonthSum cid cm ts := by
  have h := lookupAmt_category_spending_aux cm ts [] cid
  simp only [lookupAmt, zero_add] at h
  have hdef : category_spending_pairs ts cm =
      List.foldl (fun pairs t =>
        if spendCond cm t then addSpending pairs t.category_id t.amount
        else pairs) [] ts := rfl
  rw [hdef, h, categoryMonthSum]
  have hfil : ts.filter (fun t => spendCond cm t && t.category_id == cid) =
      ts.filter (fun t => t.type == TransactionType.expense &&
        SDate.leb cm t.date && t.category_id == cid) := by
    apply List.filter_congr
    intro t _
    simp [spendCond, Bool.and_assoc]
  rw [hfil]

theorem keys_category_spending_aux (cm : SDate) (ts : List Transaction) :
    ∀ (pairs : List (String × ℚ)) (cid : String),
      (cid ∈ (ts.foldl (fun pairs t =>
        if spendCond cm t then addSpending pairs t.category_id t.amount
        else pairs) pairs).map Prod.fst ↔
        cid ∈ pairs.map Prod.fst ∨
          ∃ t ∈ ts, spendCond cm t = true ∧ t.category_id = cid) := by
  induction ts with
  | nil => intro pairs cid; simp
  | cons t rest ih =>
    intro pairs cid
    by_cases hc : spendCond cm t
    · by_cases hmem : t.category_id ∈ pairs.map Prod.fst
      · simp only [List.foldl_cons, hc, if_true, ih, keys_addSpending]
        rw [if_pos hmem]
        constructor
        · rintro (h | ⟨u, hu, hcu, hcid⟩)
          · exact Or.inl h
          · exact Or.inr ⟨u, List.mem_cons_of_mem t hu, hcu, hcid⟩
        · rintro (h | ⟨u, hu, hcu, hcid⟩)
          · exact Or.inl h
          · rcases List.mem_cons.mp hu with rfl | hu2
            · exact Or.inl (hcid ▸ hmem)
            · exact Or.inr ⟨u, hu2, hcu, hcid⟩
      · simp only [List.foldl_cons, hc, if_true, ih, keys_addSpending]
        rw [if_neg hmem]
        simp only [List.mem_append, List.mem_singleton]
        constructor
        · rintro ((h | h) | ⟨u, hu, hcu, hcid⟩)
          · exact Or.inl h
          · exact Or.inr ⟨t, List.mem_cons_self t rest, hc, h.symm⟩
          · exact Or.inr ⟨u, List.mem_cons_of_mem t hu, hcu, hcid⟩
        · rintro (h | ⟨u, hu, hcu, hcid⟩)
          · exact Or.inl (Or.inl h)
          · rcases List.mem_cons.mp hu with rfl | hu2
            · exact Or.inl (Or.inr hcid.symm)
            · exact Or.inr ⟨u, hu2, hcu, hcid⟩
    · have hcf : spendCond cm t = false := eq_false_of_ne_true hc
      simp only [List.foldl_cons, hcf, Bool.false_eq_true, if_false, ih]
      constructor
      · rintro (h | ⟨u, hu, hcu, hcid⟩)
        · exact Or.inl h
        · exact Or.inr ⟨u, List.mem_cons_of_mem t hu, hcu, hcid⟩
      · rintro (h | ⟨u, hu, hcu, hcid⟩)
        · exact Or.inl h
        · rcases List.mem_cons.mp hu with rfl | hu2
          · exact absurd hcu (by simp [hcf])
          · exact Or.inr ⟨u, hu2, hcu, hcid⟩

/-- A category id is a key of `category_spending` exactly when it owns at
least one current-month expense transaction. -/
theorem keys_category_spending (cm : SDate) (ts : List Transaction)
    (cid : String) :
    cid ∈ (category_spending_pairs ts cm).map Prod.fst ↔
      ∃ t ∈ ts, spendCond cm t = true ∧ t.category_id = cid := by
  have h := keys_category_spending_aux cm ts [] cid
  have hdef : category_spending_pairs ts cm =
      List.foldl (fun pairs t =>
        if spendCond cm t then addSpending pairs t.category_id t.amount
        else pairs) [] ts := rfl
  rw [hdef]
  simpa using h

theorem nodup_keys_category_spending_aux (cm : SDate)
    (ts : List Transaction) :
    ∀ pairs : List (String × ℚ), (pairs.map Prod.fst).Nodup →
      (((ts.foldl (fun pairs t =>
        if spendCond cm t then addSpending pairs t.category_id t.amount
        else pairs) pairs)).map Prod.fst).Nodup := by
  induction ts with
  | nil => intro pairs h; simpa using h
  | cons t rest ih =>
    intro pairs h
    by_cases hc : spendCond cm t
    · simp only [List.foldl_cons, hc, if_true]
      exact ih _ (nodup_keys_addSpending pairs t.category_id t.amount h)
    · have hcf : spendCond cm t = false := eq_false_of_ne_true hc
      simp only [List.foldl_cons, hcf, Bool.false_eq_true, if_false]
      exact ih _ h

/-- The `category_spending` dict binds each key once. -/
theorem nodup_keys_category_spending (cm : SDate) (ts : List Transaction) :
    ((category_spending_pairs ts cm).map Prod.fst).Nodup := by
  exact nodup_keys_category_spending_aux cm ts [] (by simp)

/-! ## The claims -/

/-- C6: for every transaction snapshot and reference instant, the
dashboard summary satisfies `total_balance = total_income -
total_expenses` exactly, and each of its three monthly figures equals the
corresponding all-time total recomputed over only the transactions with
`date >= first day of the reference instant's month` (no upper date
bound). -/
theorem dashboard_totals_and_monthly_figures (ts : List Transaction)
    (cs : List Category) (d : SDate) :
    ((get_dashboard_summary ts cs d).total_balance =
      (get_dashboard_summary ts cs d).total_income -
        (get_dashboard_summary ts cs d).total_expenses) ∧
    ((get_dashboard_summary ts cs d).monthly_income =
      (get_dashboard_summary
        (ts.filter (fun t => SDate.leb (monthStart d) t.date)) cs
        d).total_income) ∧
    ((get_dashboard_summary ts cs d).monthly_expenses =
      (get_dashboard_summary
        (ts.filter (fun t => SDate.leb (monthStart d) t.date)) cs
        d).total_expenses) ∧
    ((get_dashboard_summary ts cs d).monthly_balance =
      (get_dashboard_summary
        (ts.filter (fun t => SDate.leb (monthStart d) t.date)) cs
        d).total_balance) := by
  refine ⟨rfl, ?_, ?_, ?_⟩
  · simp only [get_dashboard_summary, List.filter_filter]
  · simp only [get_dashboard_summary, List.filter_filter]
  · simp only [get_dashboard_summary, List.filter_filter]

/-- C9: the dashboard summary is deterministic — two runs on equal
transaction snapshots, equal category snapshots and the same reference
instant produce identical summaries (it is a pure function of those
three inputs: no randomness, no global mutable state). -/
theorem dashboard_summary_deterministic (ts1 ts2 : List Transaction)
    (cs1 cs2 : List Category) (d1 d2 : SDate) (ht : ts1 = ts2)
    (hc : cs1 = cs2) (hd : d1 = d2) :
    get_dashboard_summary ts1 cs1 d1 = get_dashboard_summary ts2 cs2 d2 := by
  rw [ht, hc, hd]

/-- C9 witness: the determinism theorem applied at a concrete input. -/
theorem dashboard_summary_deterministic_witness :
    get_dashboard_summary [c7Tx] [c7Cat] ⟨2025, 1, 15⟩ =
      get_dashboard_summary [c7Tx] [c7Cat] ⟨2025, 1, 15⟩ :=
  dashboard_summary_deterministic [c7Tx] [c7Tx] [c7Cat] [c7Cat]
    ⟨2025, 1, 15⟩ ⟨2025, 1, 15⟩ rfl rfl rfl

/-- C10: `create_transaction` persists the expense before the limit
check runs, so the month-to-date total the check evaluates — `month_total`
over the post-insert transaction collection — already contains the new
transaction's own amount: when no other stored transaction belongs to its
category, that total is exactly (hence at least) the new amount. -/
theorem create_transaction_total_includes_own_amount
    (tc : TransactionCreate) (newId : String) (s : Store)
    (hexp : tc.type = TransactionType.expense)
    (honly : ∀ t ∈ s.transactions, t.category_id ≠ tc.category_id)
    (hday : SDate.leb (monthStart tc.date) tc.date = true) :
    month_total tc.category_id tc.date
        ((create_transaction tc newId s).1.transactions) = tc.amount ∧
    tc.amount ≤ month_total tc.category_id tc.date
        ((create_transaction tc newId s).1.transactions) := by
  have heq : month_total tc.category_id tc.date
      ((create_transaction tc newId s).1.transactions) = tc.amount := by
    rw [create_transaction_transactions, month_total_append,
      month_total_eq_zero tc.category_id tc.date s.transactions honly,
      zero_add]
    have hfil : monthFilter tc.category_id (monthStart tc.date)
        (mkTransaction tc newId) = true := by
      simp [monthFilter, mkTransaction, hexp, hday]
    rw [if_pos hfil]
    rfl
  exact ⟨heq, le_of_eq heq.symm⟩

/-- C10 witness: creating a 42-unit expense against an empty store makes
the limit check see a month total of exactly 42. -/
theorem create_transaction_total_includes_own_amount_witness :
    month_total c10Tc.category_id c10Tc.date
      ((create_transaction c10Tc "tid" ⟨[], [], []⟩).1.transactions) =
      c10Tc.amount :=
  (create_transaction_total_includes_own_amount c10Tc "tid" ⟨[], [], []⟩
    rfl (by intro t ht; cases ht) (by decide)).1

/-- C1 counterexample: the claimed half-open window is false on the code.
With triggering date 2025-01-15, the February-dated expense `c1TxFeb`
(date 2025-02-01, on the first of the NEXT month) contributes 50 to the
total the limit check uses — the spec-side half-open total is 0 — and
against `c1Cat`'s limit of 40 the check even emits an exceeded alert
computed from that future-dated spend. -/
theorem month_window_counterexample :
    month_total "a" ⟨2025, 1, 15⟩ [c1TxFeb] = 50 ∧
    month_total_halfopen "a" ⟨2025, 1, 15⟩ [c1TxFeb] = 0 ∧
    check_category_limits_pure "a" (some c1Cat) ⟨2025, 1, 15⟩ [c1TxFeb] =
      Except.ok (some ⟨"a", AlertMessage.exceeded 50 40 "Food", 50, 40,
        125, ⟨2025, 1, 15⟩, false⟩) := by
  refine ⟨?_, ?_, ?_⟩
  · norm_num [month_total, pySum, monthFilter, monthStart, SDate.leb,
      c1TxFeb]
  · norm_num [month_total_halfopen, monthFilter, monthStart,
      nextMonthStart, SDate.leb, c1TxFeb]
  · norm_num [check_category_limits_pure, c1Cat, c1TxFeb, month_total,
      pySum, monthFilter, monthStart, SDate.leb, pyDiv]

/-- C1 (amended): the month-to-date total used by the limit check sums
exactly the category's expense transactions whose date is on or after
the first day of the triggering transaction's month, with NO upper date
bound — a transaction dated on or after the first of the next month
contributes its amount all the same. -/
theorem month_total_characterisation (cid : String) (d : SDate)
    (ts : List Transaction) (t : Transaction) :
    (month_total cid d ts =
      ((ts.filter (monthFilter cid (monthStart d))).map
        (fun t => t.amount)).sum) ∧
    (month_total cid d (ts ++ [t]) =
      month_total cid d ts +
        (if t.category_id == cid && t.type == TransactionType.expense &&
            SDate.leb (monthStart d) t.date then t.amount else 0)) :=
  ⟨month_total_eq_sum cid d ts, month_total_append cid d ts t⟩

/-- C4 counterexample: `check_category_limits` is not persistence-free —
run on `c4Store` (category `"a"` with limit 100 and a 100-unit January
expense) it writes the exceeded alert into the alert store itself,
returning a store whose alert collection has grown. -/
theorem check_category_limits_writes_alert_store :
    (check_category_limits "a" ⟨2025, 1, 10⟩ c4Store).alerts ≠
      c4Store.alerts ∧
    (check_category_limits "a" ⟨2025, 1, 10⟩ c4Store).alerts =
      [⟨"a", AlertMessage.exceeded 100 100 "Food", 100, 100, 100,
        ⟨2025, 1, 10⟩, false⟩] := by
  have h : (check_category_limits "a" ⟨2025, 1, 10⟩ c4Store).alerts =
      [⟨"a", AlertMessage.exceeded 100 100 "Food", 100, 100, 100,
        ⟨2025, 1, 10⟩, false⟩] := by
    norm_num [check_category_limits, check_category_limits_pure,
      db_find_one_category, c4Store, c2Cat, c4Tx, month_total, pySum,
      monthFilter, monthStart, SDate.leb, pyDiv]
  refine ⟨?_, h⟩
  rw [h]
  exact fun hc => List.cons_ne_nil _ _ hc

/-- C4 (amended): the limit check itself persists the produced alert —
it appends exactly the alert the pure computation yields to the alert
store, touching neither the category nor the transaction collection; the
transaction-creation caller persists the `Transaction` first and then
invokes the check on the post-insert store (for expenses), rather than
writing the alert itself. -/
theorem check_category_limits_persists_itself (cid : String) (d : SDate)
    (s : Store) (tc : TransactionCreate) (newId : String) :
    ((check_category_limits cid d s).categories = s.categories) ∧
    ((check_category_limits cid d s).transactions = s.transactions) ∧
    ((check_category_limits cid d s).alerts =
      s.alerts ++ alertsProduced (check_category_limits_pure cid
        (db_find_one_category s cid) d s.transactions)) ∧
    (tc.type = TransactionType.expense →
      create_transaction tc newId s =
        (check_category_limits tc.category_id tc.date
          ⟨s.categories, s.transactions ++ [mkTransaction tc newId],
            s.alerts⟩, mkTransaction tc newId)) ∧
    (tc.type ≠ TransactionType.expense →
      create_transaction tc newId s =
        (⟨s.categories, s.transactions ++ [mkTransaction tc newId],
          s.alerts⟩, mkTransaction tc newId)) :=
  ⟨(check_category_limits_frame cid d s).1,
   (check_category_limits_frame cid d s).2.1,
   (check_category_limits_frame cid d s).2.2,
   (create_transaction_unfold tc newId s).1,
   (create_transaction_unfold tc newId s).2⟩

/-- C4 amended witness: creating the expense `c4Tc` first appends the
transaction document and only then runs the (self-persisting) limit
check on the grown store. -/
theorem check_category_limits_persists_itself_witness :
    create_transaction c4Tc "tid" c4Store =
      (check_category_limits c4Tc.category_id c4Tc.date
        ⟨c4Store.categories, c4Store.transactions ++
          [mkTransaction c4Tc "tid"], c4Store.alerts⟩,
        mkTransaction c4Tc "tid") :=
  (check_category_limits_persists_itself "a" c4Tc.date c4Store c4Tc
    "tid").2.2.2.1 rfl

/-- C2: for a category with a positive monthly limit, writing `S` for
the month-to-date total and `P = S / limit * 100`: the check produces the
exceeded-variant alert when `P >= 100`, the warning-variant alert stating
the percentage when `80 <= P < 100`, and no alert when `P < 80`. -/
theorem limit_thresholds (cid : String) (c : Category) (d : SDate)
    (ts : List Transaction) (L : ℚ) (hen : c.limit_enabled = true)
    (hml : c.monthly_limit = some L) (hpos : 0 < L) :
    (100 ≤ month_total cid d ts / L * 100 →
      check_category_limits_pure cid (some c) d ts =
        Except.ok (some ⟨cid,
          AlertMessage.exceeded (month_total cid d ts) L c.name,
          month_total cid d ts, L, month_total cid d ts / L * 100, d,
          false⟩)) ∧
    (80 ≤ month_total cid d ts / L * 100 →
      month_total cid d ts / L * 100 < 100 →
      check_category_limits_pure cid (some c) d ts =
        Except.ok (some ⟨cid,
          AlertMessage.warning (month_total cid d ts / L * 100) c.name,
          month_total cid d ts, L, month_total cid d ts / L * 100, d,
          false⟩)) ∧
    (month_total cid d ts / L * 100 < 80 →
      check_category_limits_pure cid (some c) d ts = Except.ok none) := by
  have hL0 : ¬ L = 0 := ne_of_gt hpos
  simp only [check_category_limits_pure, hen, Bool.not_true,
    Bool.false_eq_true, if_false, hml, hL0, pyDiv, if_neg hL0]
  refine ⟨?_, ?_, ?_⟩
  · intro h100
    rw [if_pos (le_trans (by norm_num) h100), if_pos h100]
  · intro h80 h100
    rw [if_pos h80, if_neg (not_le.mpr h100)]
  · intro h80
    rw [if_neg (not_le.mpr h80)]

/-- C2 witness: an 85-unit month total against a limit of 100 yields the
warning alert with percentage 85. -/
theorem limit_thresholds_witness :
    check_category_limits_pure "a" (some c2Cat) ⟨2025, 1, 10⟩ [c2Tx] =
      Except.ok (some c2Alert) := by
  have hm : month_total "a" ⟨2025, 1, 10⟩ [c2Tx] = 85 := by
    norm_num [month_total, pySum, monthFilter, monthStart, SDate.leb, c2Tx]
  have h := (limit_thresholds "a" c2Cat ⟨2025, 1, 10⟩ [c2Tx] 100 rfl rfl
    (by norm_num)).2.1
  rw [hm] at h
  have h2 := h (by norm_num) (by norm_num)
  rw [h2]
  norm_num [c2Cat, c2Alert]

/-- C3 counterexample: a negative monthly limit is NOT equivalent to a
disabled limit on the code — a negative month total (amounts are
unvalidated floats) makes the percentage positive, and `c3Cat` (limit
-100) with the -100-unit expense `c3Tx` yields percentage 100 and an
exceeded alert. -/
theorem negative_limit_alert_counterexample :
    c3Cat.monthly_limit = some (-100) ∧
    check_category_limits_pure "a" (some c3Cat) ⟨2025, 1, 10⟩ [c3Tx] =
      Except.ok (some ⟨"a", AlertMessage.exceeded (-100) (-100) "Food",
        -100, -100, 100, ⟨2025, 1, 10⟩, false⟩) := by
  refine ⟨rfl, ?_⟩
  norm_num [check_category_limits_pure, c3Cat, c3Tx, month_total, pySum,
    monthFilter, monthStart, SDate.leb, pyDiv]

/-- C3 (amended): the limit evaluation never raises (in particular the
division is always guarded), and it produces no alert whenever the limit
is disabled, absent, or zero — for every sequence of month amounts — and
none either for a negative limit provided the month total is nonnegative
(a negative total against a negative limit does alert, see the
counterexample). -/
theorem limit_disabled_or_unusable_no_alert (cid : String) (c : Category)
    (d : SDate) (ts : List Transaction) :
    (∃ r, check_category_limits_pure cid (some c) d ts = Except.ok r) ∧
    (c.limit_enabled = false →
      check_category_limits_pure cid (some c) d ts = Except.ok none) ∧
    (c.monthly_limit = none →
      check_category_limits_pure cid (some c) d ts = Except.ok none) ∧
    (c.monthly_limit = some 0 →
      check_category_limits_pure cid (some c) d ts = Except.ok none) ∧
    (∀ L, c.monthly_limit = some L → L < 0 →
      0 ≤ month_total cid d ts →
      check_category_limits_pure cid (some c) d ts = Except.ok none) := by
  refine ⟨check_category_limits_pure_never_errors cid (some c) d ts,
    ?_, ?_, ?_, ?_⟩
  · intro hdis
    simp [check_category_limits_pure, hdis]
  · intro hnone
    by_cases he : c.limit_enabled
    · simp [check_category_limits_pure, he, hnone]
    · simp [check_category_limits_pure, he]
  · intro hzero
    by_cases he : c.limit_enabled
    · simp [check_category_limits_pure, he, hzero]
    · simp [check_category_limits_pure, he]
  · intro L hml hneg hS
    by_cases he : c.limit_enabled
    · have hL0 : ¬ L = 0 := ne_of_lt hneg
      have hq : month_total cid d ts / L ≤ 0 :=
        div_nonpos_of_nonneg_of_nonpos hS (le_of_lt hneg)
      have hP : month_total cid d ts / L * 100 < 80 := by nlinarith
      simp only [check_category_limits_pure, he, Bool.not_true,
        Bool.false_eq_true, if_false, hml, hL0, pyDiv, if_neg hL0]
      rw [if_neg (not_le.mpr hP)]
    · simp [check_category_limits_pure, he]

/-- C3 amended witness: a disabled limit yields no alert. -/
theorem limit_disabled_no_alert_witness :
    check_category_limits_pure "b" (some c3DisabledCat) ⟨2025, 1, 10⟩
      [] = Except.ok none :=
  (limit_disabled_or_unusable_no_alert "b" c3DisabledCat ⟨2025, 1, 10⟩
    []).2.1 rfl

/-- C5: every alert the limit evaluation produces carries the category
id, `amount_spent` equal to the computed month-to-date total,
`limit_amount` equal to the category's monthly limit, `percentage` equal
to `total / limit * 100`, the triggering transaction's date, and the
read flag `false`. -/
theorem alert_fields (cid : String) (c : Category) (d : SDate)
    (ts : List Transaction) (alert : Alert)
    (h : check_category_limits_pure cid (some c) d ts =
      Except.ok (some alert)) :
    alert.category_id = cid ∧
    alert.amount_spent = month_total cid d ts ∧
    c.monthly_limit = some alert.limit_amount ∧
    alert.percentage = month_total cid d ts / alert.limit_amount * 100 ∧
    alert.date = d ∧
    alert.is_read = false := by
  by_cases he : c.limit_enabled
  · cases hml : c.monthly_limit with
    | none => simp [check_category_limits_pure, he, hml] at h
    | some L =>
      by_cases hL0 : L = 0
      · simp [check_category_limits_pure, he, hml, hL0] at h
      · simp only [check_category_limits_pure, he, Bool.not_true,
          Bool.false_eq_true, if_false, hml, hL0, pyDiv,
          if_neg hL0] at h
        by_cases h80 : 80 ≤ month_total cid d ts / L * 100
        · rw [if_pos h80] at h
          injection h with h1
          injection h1 with h2
          subst h2
          exact ⟨rfl, rfl, rfl, rfl, rfl, rfl⟩
        · rw [if_neg h80] at h
          exact absurd h (by simp)
  · simp [check_category_limits_pure, he] at h

/-- C5 witness: the field contract evaluated on the concrete warning
alert produced for `c2Tx` against `c2Cat`. -/
theorem alert_fields_witness :
    c2Alert.category_id = "a" ∧
    c2Alert.amount_spent = month_total "a" ⟨2025, 1, 10⟩ [c2Tx] ∧
    c2Cat.monthly_limit = some c2Alert.limit_amount ∧
    c2Alert.percentage =
      month_total "a" ⟨2025, 1, 10⟩ [c2Tx] / c2Alert.limit_amount * 100 ∧
    c2Alert.date = ⟨2025, 1, 10⟩ ∧
    c2Alert.is_read = false :=
  alert_fields "a" c2Cat ⟨2025, 1, 10⟩ [c2Tx] c2Alert
    (by
      have hm : month_total "a" ⟨2025, 1, 10⟩ [c2Tx] = 85 := by
        norm_num [month_total, pySum, monthFilter, monthStart, SDate.leb,
          c2Tx]
      norm_num [check_category_limits_pure, c2Cat, pyDiv, hm, c2Alert])

/-- C7 counterexample: "nonzero accumulated spend" is not what gates the
breakdown — a category with a single zero-amount current-month expense
(`c7Tx`) gets a breakdown record with `amount = 0`, although its
accumulated spend is zero. -/
theorem zero_spend_breakdown_record_counterexample :
    (get_dashboard_summary [c7Tx] [c7Cat] ⟨2025, 1, 15⟩).category_spending =
      [⟨"Food", 0, "#f00"⟩] ∧
    categoryMonthSum "a" (monthStart ⟨2025, 1, 15⟩) [c7Tx] = 0 := by
  constructor
  · simp [get_dashboard_summary, category_spending_pairs, addSpending,
      categories_dict_get, c7Tx, c7Cat, monthStart, SDate.leb]
  · norm_num [categoryMonthSum, monthStart, SDate.leb, c7Tx]

/-- C7 (amended): the breakdown contains one record per category id that
has AT LEAST ONE current-month expense transaction (the accumulated
amount may be zero) and is present in the category snapshot, each record
carrying that category's name and color and the accumulated amount;
spend keyed to a category id absent from the snapshot is dropped from
the breakdown yet still counted in `total_expenses` and
`monthly_expenses` (which never consult the category snapshot). -/
theorem category_spending_characterisation (ts : List Transaction)
    (cs : List Category) (d : SDate) :
    (((category_spending_pairs ts (monthStart d)).map Prod.fst).Nodup) ∧
    (∀ cid, cid ∈ (category_spending_pairs ts (monthStart d)).map
        Prod.fst ↔
      ∃ t ∈ ts, spendCond (monthStart d) t = true ∧
        t.category_id = cid) ∧
    (∀ cid, lookupAmt (category_spending_pairs ts (monthStart d)) cid =
      categoryMonthSum cid (monthStart d) ts) ∧
    (∀ p ∈ category_spending_pairs ts (monthStart d),
      p.2 = lookupAmt (category_spending_pairs ts (monthStart d)) p.1) ∧
    ((get_dashboard_summary ts cs d).category_spending =
      (category_spending_pairs ts (monthStart d)).filterMap (fun p =>
        (categories_dict_get cs p.1).map
          (fun c => CategorySpendingRecord.mk c.name p.2 c.color))) ∧
    ((get_dashboard_summary ts cs d).total_expenses =
      ((ts.filter (fun t => t.type == TransactionType.expense)).map
        (fun t => t.amount)).sum) ∧
    ((get_dashboard_summary ts cs d).monthly_expenses =
      ((ts.filter (fun t => t.type == TransactionType.expense &&
        SDate.leb (monthStart d) t.date)).map (fun t => t.amount)).sum) := by
  refine ⟨nodup_keys_category_spending (monthStart d) ts,
    fun cid => keys_category_spending (monthStart d) ts cid,
    fun cid => lookupAmt_category_spending (monthStart d) ts cid,
    mem_value_eq_lookupAmt _ (nodup_keys_category_spending (monthStart d)
      ts),
    rfl, ?_, ?_⟩
  · show pySum _ = _
    exact pySum_eq_sum _
  · show pySum _ = _
    exact pySum_eq_sum _

/-- C7 amended witness: on the concrete snapshot the dict value for
category `"a"` is its (zero) month sum. -/
theorem category_spending_characterisation_witness :
    lookupAmt (category_spending_pairs [c7Tx] (monthStart ⟨2025, 1, 15⟩))
      "a" = categoryMonthSum "a" (monthStart ⟨2025, 1, 15⟩) [c7Tx] :=
  (category_spending_characterisation [c7Tx] [c7Cat]
    ⟨2025, 1, 15⟩).2.2.1 "a"

/-- C8: the recent-transactions list has length `min 10 |ts|`, is sorted
by date descending, comes from a stable sort (restricted to any one
date, the snapshot's relative order survives; the sorted list is a
permutation of the snapshot), and each entry's `category_name` is the
owning category's name exactly when that id is in the category snapshot,
absent otherwise. -/
theorem recent_transactions_characterisation (ts : List Transaction)
    (cs : List Category) (d : SDate) :
    ((get_dashboard_summary ts cs d).recent_transactions.length =
      min 10 ts.length) ∧
    ((get_dashboard_summary ts cs d).recent_transactions.Pairwise
      (fun a b => SDate.leb b.date a.date = true)) ∧
    ((sortTxnsDesc ts).Perm ts) ∧
    (∀ dd, (sortTxnsDesc ts).filter (fun t => t.date == dd) =
      ts.filter (fun t => t.date == dd)) ∧
    ((get_dashboard_summary ts cs d).recent_transactions =
      ((sortTxnsDesc ts).take 10).map (fun t =>
        RecentTransaction.mk t.id t.description t.amount t.type
          t.category_id t.date
          ((categories_dict_get cs t.category_id).map (fun c => c.name)))) ∧
    (∀ r ∈ (get_dashboard_summary ts cs d).recent_transactions,
      r.category_name =
        (categories_dict_get cs r.category_id).map (fun c => c.name)) := by
  refine ⟨?_, ?_, perm_sortTxnsDesc ts,
    fun dd => filter_date_sortTxnsDesc dd ts, rfl, ?_⟩
  · show (((sortTxnsDesc ts).take 10).map _).length = _
    rw [List.length_map, List.length_take, length_sortTxnsDesc]
  · show (((sortTxnsDesc ts).take 10).map _).Pairwise _
    have hp : ((sortTxnsDesc ts).take 10).Pairwise
        (fun a b => SDate.leb b.date a.date = true) :=
      List.Pairwise.sublist (List.take_sublist 10 _)
        (pairwise_sortTxnsDesc ts)
    exact List.pairwise_map.mpr hp
  · intro r hr
    rcases List.mem_map.mp hr with ⟨t, ht, rfl⟩
    rfl

/-- C8 witness: on the concrete three-transaction snapshot the length is
`min 10 3 = 3` and the date-10 pair keeps its snapshot order. -/
theorem recent_transactions_characterisation_witness :
    (get_dashboard_summary c8Ts [] ⟨2025, 1, 15⟩).recent_transactions.length
      = min 10 c8Ts.length ∧
    (sortTxnsDesc c8Ts).filter
        (fun t => t.date == (⟨2025, 1, 10⟩ : SDate)) =
      c8Ts.filter (fun t => t.date == (⟨2025, 1, 10⟩ : SDate)) :=
  ⟨(recent_transactions_characterisation c8Ts [] ⟨2025, 1, 15⟩).1,
   (recent_transactions_characterisation c8Ts [] ⟨2025, 1, 15⟩).2.2.2.1
     ⟨2025, 1, 10⟩⟩

end ControleFinanceiro
